import Mathlib

/- Verification development for the AI research agent (`app.py`): a Streamlit
app that scrapes web pages / PDFs, classifies discovered anchors, composes
prompts for a local LLM, and executes navigation directives found in model
completions.  Pure logic is embedded shallowly; the external collaborators
(HTTP fetch, HTML parse, PDF extraction, the LLM call) appear as explicit
parameters carrying their observable outcomes. -/

/-- One chat turn as stored in `st.session_state.messages`. -/
structure Turn where
  role : String
  content : String
deriving DecidableEq

/-- A raw anchor as delivered by the HTML parser: anchor text (after
`get_text(strip=True)`) and the href target string. -/
structure Anchor where
  text : String
  href : String
deriving DecidableEq

/-- A classified link entry, mirroring the `link_data` dictionary
built in `fetch_webpage_data`. -/
structure LinkData where
  text : String
  url : String
deriving DecidableEq

/-- The recognized document extensions (`target_extensions` in
`fetch_webpage_data`). -/
def target_extensions : List String := [".pdf", ".txt", ".csv", ".md", ".json", ".docx"]

/-- Python `s.lower()` on the ASCII range, as a character list. -/
def lowerStr (s : String) : List Char := s.toList.map Char.toLower

/-- Python `any(full_url.lower().endswith(ext) for ext in target_extensions)`. -/
def endsWithExt (u : String) : Bool :=
  target_extensions.any (fun ext => ext.toList.isSuffixOf (lowerStr u))

/-- The anchor skip condition of `fetch_webpage_data`:
`not href or href.startswith('#') or href.startswith('javascript:')`. -/
def skipAnchor (href : String) : Bool :=
  href.isEmpty || "#".toList.isPrefixOf href.toList ||
    "javascript:".toList.isPrefixOf href.toList

/-- Python `link.get_text(strip=True) or "[No Text]"` defaulting. -/
def anchorLabel (t : String) : String := if t.isEmpty then "[No Text]" else t

/-- The link-extraction loop of `fetch_webpage_data`.  `resolve` stands for
`urljoin(url, -)` from `urllib.parse`, an external library function kept
abstract.  Returns the pair (links, files) in document order. -/
def extractLinks (resolve : String → String) : List Anchor → List LinkData × List LinkData
  | [] => ([], [])
  | a :: rest =>
    if skipAnchor a.href then extractLinks resolve rest
    else if endsWithExt (resolve a.href) then
      ((extractLinks resolve rest).1,
       LinkData.mk (anchorLabel a.text) (resolve a.href) :: (extractLinks resolve rest).2)
    else
      (LinkData.mk (anchorLabel a.text) (resolve a.href) :: (extractLinks resolve rest).1,
       (extractLinks resolve rest).2)

/-- Python string slicing `text[:n]`, by code points. -/
def truncate (t : String) (n : Nat) : String := String.mk (t.toList.take n)

/-- Successful result payload of `fetch_webpage_data` (the dictionary with
`"error": None`). -/
structure PageData where
  text : String
  links : List LinkData
  files : List LinkData
deriving DecidableEq

/-- The success path of `fetch_webpage_data`, given the cleaned page text
(after the script/style/nav/footer/header strip) and the raw anchor list. -/
def fetch_webpage_data (resolve : String → String) (pageText : String)
    (anchors : List Anchor) : PageData :=
  PageData.mk (truncate pageText 100000) (extractLinks resolve anchors).1
    (extractLinks resolve anchors).2

/-- Page-by-page accumulation of `extract_pdf_text`:
`text += (page.extract_text() or "") + "\n"`.  A page's result is `none` when
`extract_text()` yields no text. -/
def pdfConcat : List (Option String) → String
  | [] => ""
  | p :: ps => (p.getD "") ++ "\n" ++ pdfConcat ps

/-- The success path of `extract_pdf_text`: concatenate pages, then slice to
100000 characters. -/
def extract_pdf_text (pages : List (Option String)) : String :=
  truncate (pdfConcat pages) 100000

/-- The Streamlit session state fields initialized on lines 100-109. -/
structure SessionState where
  context_text : String
  messages : List Turn
  found_files : List LinkData
  found_links : List LinkData
  current_url : String
deriving DecidableEq

/-- The assistant notice appended by `load_new_url` on success (line 128). -/
def navNotice (u : String) : Turn :=
  Turn.mk "assistant" ("✅ **Navigation Successful!** I have loaded the new page: " ++ u)

/-- `load_new_url` (lines 116-129), with the outcome of `fetch_webpage_data`
passed explicitly (`none` models the error dictionary).  Returns the updated
session state together with the Boolean the Python function returns. -/
def load_new_url (st : SessionState) (target_url : String)
    (fetchResult : Option PageData) : SessionState × Bool :=
  match fetchResult with
  | none => (st, false)
  | some d =>
    (SessionState.mk d.text (st.messages ++ [navNotice target_url]) d.files d.links
      target_url, true)

/-- The `Process PDF` branch (lines 139-150), with the `extract_pdf_text`
outcome passed explicitly (`none` models the error dictionary, which leaves
the session state untouched). -/
def processPdf (st : SessionState) (extractResult : Option String) : SessionState :=
  match extractResult with
  | none => st
  | some t => SessionState.mk t [] [] [] "PDF Upload"

/-- One line of the injected link table: `- {text}: {url}\n` (line 180). -/
def linkLine (l : LinkData) : String := "- " ++ l.text ++ ": " ++ l.url ++ "\n"

/-- The `links_context` accumulation loop over the given entries. -/
def linesFor : List LinkData → String
  | [] => ""
  | l :: ls => linkLine l ++ linesFor ls

/-- `links_context` (lines 176-180): empty when no links were found, otherwise
a header plus one line per link among the first 50. -/
def links_context (links : List LinkData) : String :=
  if links.isEmpty then ""
  else "\n\nAVAILABLE LINKS ON THIS PAGE:\n" ++ linesFor (links.take 50)

/-- The `system_prompt` f-string (lines 182-195). -/
def system_prompt (context_text : String) (links : List LinkData) : String :=
  "\n    You are a helpful research assistant.\n    Answer strictly based on the provided text.\n    \n    IMPORTANT: You have the ability to navigate the web.\n    If the user asks to \"follow\", \"click\", or \"go to\" a specific link found in the content below,\n    reply with EXACTLY this JSON format and nothing else:\n    \x7b \"action\": \"navigate\", \"url\": \"THE_URL_HERE\" \x7d\n\n    TEXT DATA:\n    "
    ++ context_text ++ "\n\n    " ++ links_context links ++ "\n    "

/-- `api_messages = [system turn] + st.session_state.messages` (line 200). -/
def api_messages (st : SessionState) : List Turn :=
  Turn.mk "system" (system_prompt st.context_text st.found_links) :: st.messages

/-- Python substring containment `needle in hay`. -/
def containsSub (needle : List Char) : List Char → Bool
  | [] => needle.isEmpty
  | c :: t => needle.isPrefixOf (c :: t) || containsSub needle t

/-- The space variant of the directive marker, checked on lines 216 and 235. -/
def markerSpace : List Char := "\x7b \"action\": \"navigate\"".toList

/-- The no-space variant of the directive marker, checked on line 216 only. -/
def markerNoSpace : List Char := "\x7b\"action\": \"navigate\"".toList

/-- Containment of the space marker variant in a completion. -/
def hasMarkerSpace (s : String) : Bool := containsSub markerSpace s.toList

/-- Containment of the no-space marker variant in a completion. -/
def hasMarkerNoSpace (s : String) : Bool := containsSub markerNoSpace s.toList

/-- The full detection condition of line 216. -/
def hasMarker (s : String) : Bool := hasMarkerSpace s || hasMarkerNoSpace s

/-- Python regex whitespace class on the ASCII range. -/
def isPySpace (c : Char) : Bool :=
  c == ' ' || c == '\t' || c == '\n' || c == '\r' || c == '\x0b' || c == '\x0c'

/-- Match a literal needle at the head, returning the remainder on success. -/
def stripPrefixChars : List Char → List Char → Option (List Char)
  | [], s => some s
  | _ :: _, [] => none
  | c :: cs, d :: ds => if c = d then stripPrefixChars cs ds else none

/-- The literal part of the URL regex on line 219. -/
def urlKey : List Char := "\"url\":".toList

/-- Continue the regex after the literal: skip the whitespace run, require an
opening quote, capture one or more non-quote characters, require the closing
quote.  Backtracking adds nothing here: no whitespace character is a quote,
and shortening the capture still leaves a non-quote before the closer. -/
def afterKey (rest : List Char) : Option (List Char) :=
  match rest.dropWhile isPySpace with
  | '\"' :: r2 =>
    match r2.dropWhile (fun c => c != '\"') with
    | '\"' :: _ =>
      if (r2.takeWhile (fun c => c != '\"')).isEmpty then none
      else some (r2.takeWhile (fun c => c != '\"'))
    | _ => none
  | _ => none

/-- Attempt the URL pattern starting exactly at the head of the input. -/
def tryUrl (s : List Char) : Option (List Char) :=
  match stripPrefixChars urlKey s with
  | some rest => afterKey rest
  | none => none

/-- Leftmost search of the URL pattern, modelling the `re.search` call on
line 219: try every start position from the left, first full match wins. -/
def findUrl : List Char → Option (List Char)
  | [] => none
  | c :: t =>
    match tryUrl (c :: t) with
    | some u => some u
    | none => findUrl t

/-- Outcome of the navigation check applied to one completion string. -/
inductive NavResult where
  | noDirective
  | navigate (url : String)
  | malformed
deriving DecidableEq

/-- The navigation-command parse implemented on lines 216-228: marker
detection, then URL extraction; `malformed` models the error path shown as
`AI tried to navigate but the URL was broken.` -/
def navParse (s : String) : NavResult :=
  if hasMarker s then
    match findUrl s.toList with
    | some u => NavResult.navigate (String.mk u)
    | none => NavResult.malformed
  else NavResult.noDirective

/-- The transcript guard of line 235: append the raw reply as an assistant
turn unless the SPACE variant of the marker occurs in it. -/
def appendGuard (st : SessionState) (ai_reply : String) : SessionState :=
  if hasMarkerSpace ai_reply then st
  else
    SessionState.mk st.context_text (st.messages ++ [Turn.mk "assistant" ai_reply])
      st.found_files st.found_links st.current_url

/-- The post-completion handling of lines 214-236.  `fetchResult` is the
outcome of the navigation fetch, consulted only when a navigation is
attempted.  On successful navigation `st.rerun()` aborts the script before
line 235 runs, modelled by returning the navigated state directly; every
other path falls through to the line-235 guard. -/
def handle_reply (st : SessionState) (ai_reply : String)
    (fetchResult : Option PageData) : SessionState :=
  if hasMarker ai_reply then
    match findUrl ai_reply.toList with
    | some u =>
      if (load_new_url st (String.mk u) fetchResult).2 then
        (load_new_url st (String.mk u) fetchResult).1
      else appendGuard (load_new_url st (String.mk u) fetchResult).1 ai_reply
    | none => appendGuard st ai_reply
  else appendGuard st ai_reply

/-- Remainder of the input after the first occurrence of a needle. -/
def afterSubstr (needle : List Char) : List Char → Option (List Char)
  | [] => none
  | c :: t =>
    if needle.isPrefixOf (c :: t) then some ((c :: t).drop needle.length)
    else afterSubstr needle t

/-- Follows the claim's words (not the code): the path component of a resolved
URL, with scheme and authority stripped and query/fragment excluded.  Used
only to state the path-based classification criterion that C5 asserts. -/
def specPathComponent (u : String) : String :=
  match afterSubstr "://".toList u.toList with
  | some rest => String.mk ((rest.dropWhile (fun c => c != '/')).takeWhile
      (fun c => c != '?' && c != '#'))
  | none => String.mk (u.toList.takeWhile (fun c => c != '?' && c != '#'))

/-- Truncation yields exactly the minimum of the original length and the cap. -/
theorem truncate_length (t : String) (n : Nat) :
    (truncate t n).length = min t.length n := by
  show (t.toList.take n).length = min t.toList.length n
  rw [List.length_take, Nat.min_comm]

/-- Taking the first 50 entries preserves emptiness. -/
theorem take50_isEmpty (l : List LinkData) : (l.take 50).isEmpty = l.isEmpty := by
  cases l <;> rfl

/-- The rendered link context depends on the link list only through its first
50 entries. -/
theorem links_context_congr (l1 l2 : List LinkData) (h : l1.take 50 = l2.take 50) :
    links_context l1 = links_context l2 := by
  unfold links_context
  rw [← take50_isEmpty l1, h, take50_isEmpty l2]

/-- The extraction loop is a filter-map-filter pipeline over the anchors:
drop the skipped targets, build the entries, split by the extension test. -/
theorem extractLinks_spec (resolve : String → String) (anchors : List Anchor) :
    extractLinks resolve anchors =
      (((anchors.filter (fun a => !skipAnchor a.href)).map
          (fun a => LinkData.mk (anchorLabel a.text) (resolve a.href))).filter
        (fun x => !endsWithExt x.url),
       ((anchors.filter (fun a => !skipAnchor a.href)).map
          (fun a => LinkData.mk (anchorLabel a.text) (resolve a.href))).filter
        (fun x => endsWithExt x.url)) := by
  induction anchors with
  | nil => rfl
  | cons a rest ih =>
    cases hs : skipAnchor a.href with
    | true => simp [extractLinks, hs, List.filter, ih]
    | false =>
      cases he : endsWithExt (resolve a.href) with
      | true => simp [extractLinks, hs, he, List.filter, ih]
      | false => simp [extractLinks, hs, he, List.filter, ih]

/-- The line-235 guard never touches the resource fields. -/
theorem appendGuard_resource (st : SessionState) (s : String) :
    (appendGuard st s).context_text = st.context_text ∧
    (appendGuard st s).found_links = st.found_links ∧
    (appendGuard st s).found_files = st.found_files ∧
    (appendGuard st s).current_url = st.current_url := by
  unfold appendGuard
  split <;> exact ⟨rfl, rfl, rfl, rfl⟩

/-- The search is the first successful pattern attempt over the suffixes of
the input, longest suffix (leftmost start position) first. -/
theorem findUrl_tails (s : List Char) : findUrl s = s.tails.findSome? tryUrl := by
  induction s with
  | nil => rfl
  | cons c t ih =>
    rw [List.tails_cons, List.findSome?_cons]
    unfold findUrl
    cases tryUrl (c :: t) with
    | some u => rfl
    | none => exact ih

/-- C1: load/navigation is atomic.  A failed fetch returns `False` and leaves
the session state (hence document text, link list, file list and current
source id) exactly as it was, both for a direct `load_new_url` call and for a
navigation attempted inside the reply handler; a successful fetch replaces
all four resource fields together from the freshly built `PageData`. -/
theorem c1_load_atomicity (st : SessionState) (u : String) (d : PageData) (s : String) :
    ((load_new_url st u none).1 = st ∧ (load_new_url st u none).2 = false) ∧
    ((load_new_url st u (some d)).1.context_text = d.text ∧
     (load_new_url st u (some d)).1.found_links = d.links ∧
     (load_new_url st u (some d)).1.found_files = d.files ∧
     (load_new_url st u (some d)).1.current_url = u ∧
     (load_new_url st u (some d)).2 = true) ∧
    ((handle_reply st s none).context_text = st.context_text ∧
     (handle_reply st s none).found_links = st.found_links ∧
     (handle_reply st s none).found_files = st.found_files ∧
     (handle_reply st s none).current_url = st.current_url) := by
  refine ⟨⟨rfl, rfl⟩, ⟨rfl, rfl, rfl, rfl, rfl⟩, ?_⟩
  unfold handle_reply
  cases h : hasMarker s with
  | false => simpa [h] using appendGuard_resource st s
  | true =>
    cases hf : findUrl s.toList with
    | none => simpa [h, hf] using appendGuard_resource st s
    | some u2 => simpa [h, hf, load_new_url] using appendGuard_resource st s

/-- C4 counterexample: a successful manual URL load with a nonempty prior
history does NOT clear the history — the load succeeds (returns `True`) and
the stored history immediately afterwards is nonempty. -/
theorem c4_counterexample :
    (load_new_url (SessionState.mk "old" [Turn.mk "user" "q"] [] [] "http://o")
        "http://n" (some (PageData.mk "new" [] []))).2 = true ∧
    ¬ (load_new_url (SessionState.mk "old" [Turn.mk "user" "q"] [] [] "http://o")
        "http://n" (some (PageData.mk "new" [] []))).1.messages = [] := by
  decide

/-- C4 amended: a successful PDF upload clears the conversation history
unconditionally; a successful manual URL load preserves the existing history
and appends the navigation-success notice to it. -/
theorem c4_amended_history (st : SessionState) (u t : String) (d : PageData) :
    (processPdf st (some t)).messages = [] ∧
    (load_new_url st u (some d)).1.messages = st.messages ++ [navNotice u] :=
  ⟨rfl, rfl⟩

/-- C7: for all texts and budgets, truncation returns a string whose length is
the minimum of the text length and the budget (counted in characters) and
whose character sequence is a prefix of the original text. -/
theorem c7_truncate_prefix (t : String) (n : Nat) :
    (truncate t n).length = min t.length n ∧ (truncate t n).toList <+: t.toList :=
  ⟨truncate_length t n, ⟨t.toList.drop n, List.take_append_drop n t.toList⟩⟩

/-- C8: PDF extraction is the page concatenation put under the 100000
character budget; each page contributes its text followed by the newline
separator, a text-less page contributing only the separator (the document as
a whole still succeeds); the resulting upload state carries the extracted
text with empty link and file lists. -/
theorem c8_pdf_extraction (pages ps : List (Option String)) (t : String)
    (st : SessionState) :
    extract_pdf_text pages = truncate (pdfConcat pages) 100000 ∧
    (extract_pdf_text pages).length ≤ 100000 ∧
    pdfConcat (none :: ps) = "\n" ++ pdfConcat ps ∧
    pdfConcat (some t :: ps) = t ++ "\n" ++ pdfConcat ps ∧
    (processPdf st (some (extract_pdf_text pages))).context_text = extract_pdf_text pages ∧
    (processPdf st (some (extract_pdf_text pages))).found_links = [] ∧
    (processPdf st (some (extract_pdf_text pages))).found_files = [] := by
  refine ⟨rfl, ?_, rfl, rfl, rfl, rfl, rfl⟩
  rw [show extract_pdf_text pages = truncate (pdfConcat pages) 100000 from rfl,
    truncate_length]
  exact Nat.min_le_right _ _

/-- C5 counterexample: for the resolved target `http://x/doc.pdf?v=1` the path
component ends in `.pdf`, yet the classifier does NOT place the kept anchor in
`files` (the whole-URL suffix test fails on the query string), refuting the
path-component criterion. -/
theorem c5_counterexample :
    ¬ ((LinkData.mk "Doc" "http://x/doc.pdf?v=1" ∈
          (extractLinks id [Anchor.mk "Doc" "http://x/doc.pdf?v=1"]).2) ↔
        endsWithExt (specPathComponent "http://x/doc.pdf?v=1") = true) := by
  decide

/-- C5 amended: a kept anchor is placed in `files` exactly when the FULL
resolved URL string (not merely its path component) ends, case-insensitively,
with one of the recognized extensions; every entry of `files` passes the
suffix test and every entry of `links` fails it. -/
theorem c5_amended_suffix (resolve : String → String) (anchors : List Anchor)
    (x : LinkData) :
    (x ∈ (extractLinks resolve anchors).2 → endsWithExt x.url = true) ∧
    (x ∈ (extractLinks resolve anchors).1 → endsWithExt x.url = false) := by
  rw [extractLinks_spec]
  constructor
  · intro hx
    exact (List.mem_filter.mp hx).2
  · intro hx
    have := (List.mem_filter.mp hx).2
    simpa using this

/-- C5 witness: the amended suffix criterion evaluated at a concrete file
anchor. -/
theorem c5_witness : endsWithExt (LinkData.mk "D" "http://x/a.pdf").url = true :=
  (c5_amended_suffix id [Anchor.mk "D" "http://x/a.pdf"]
    (LinkData.mk "D" "http://x/a.pdf")).1 (by decide)

/-- C6: the classifier output is exactly the partition of the kept anchors
(those not skipped as empty, fragment-only or javascript targets), mapped to
entries in source document order with no deduplication, split by the
extension test; no entry lands in both sequences. -/
theorem c6_partition (resolve : String → String) (anchors : List Anchor) :
    extractLinks resolve anchors =
      (((anchors.filter (fun a => !skipAnchor a.href)).map
          (fun a => LinkData.mk (anchorLabel a.text) (resolve a.href))).filter
        (fun x => !endsWithExt x.url),
       ((anchors.filter (fun a => !skipAnchor a.href)).map
          (fun a => LinkData.mk (anchorLabel a.text) (resolve a.href))).filter
        (fun x => endsWithExt x.url)) ∧
    (∀ x : LinkData, x ∈ (extractLinks resolve anchors).1 →
      x ∉ (extractLinks resolve anchors).2) := by
  refine ⟨extractLinks_spec resolve anchors, ?_⟩
  intro x h1 h2
  rw [extractLinks_spec] at h1 h2
  have hl := (List.mem_filter.mp h1).2
  have hf := (List.mem_filter.mp h2).2
  simp [hf] at hl

/-- C6 witness: the no-overlap part evaluated at a concrete navigable anchor. -/
theorem c6_witness :
    LinkData.mk "A" "http://x/a" ∉ (extractLinks id [Anchor.mk "A" "http://x/a"]).2 :=
  (c6_partition id [Anchor.mk "A" "http://x/a"]).2 (LinkData.mk "A" "http://x/a")
    (by decide)

/-- C2: directive detection and extraction.  The three contract examples hold
(directive with url, plain conversational text, marker without url), and in
general: without a marker the parse yields no directive and the completion is
stored as an ordinary assistant turn; with a marker, the parse yields the URL
the bounded pattern captures when one exists and the malformed signal (a
total, non-crashing outcome) when none does. -/
theorem c2_directive_detection :
    navParse "Hello \x7b\"action\": \"navigate\", \"url\": \"https://x/y\"\x7d " =
      NavResult.navigate "https://x/y" ∧
    navParse "Hello, the answer is 42." = NavResult.noDirective ∧
    navParse "\x7b\"action\": \"navigate\"\x7d" = NavResult.malformed ∧
    (∀ s : String, hasMarker s = false → navParse s = NavResult.noDirective) ∧
    (∀ s : String, hasMarker s = true → findUrl s.toList = none →
      navParse s = NavResult.malformed) ∧
    (∀ (s : String) (u : List Char), hasMarker s = true → findUrl s.toList = some u →
      navParse s = NavResult.navigate (String.mk u)) ∧
    (∀ (st : SessionState) (s : String) (r : Option PageData), hasMarker s = false →
      (handle_reply st s r).messages = st.messages ++ [Turn.mk "assistant" s]) := by
  refine ⟨by decide, by decide, by decide, ?_, ?_, ?_, ?_⟩
  · intro s h
    simp [navParse, h]
  · intro s h h2
    have h3 : findUrl s.data = none := h2
    simp [navParse, h, h3]
  · intro s u h h2
    have h3 : findUrl s.data = some u := h2
    simp [navParse, h, h3]
  · intro st s r h
    have h1 : hasMarkerSpace s = false := by
      have := h
      unfold hasMarker at this
      exact (Bool.or_eq_false_iff.mp this).1
    simp [handle_reply, h, appendGuard, h1]

/-- C2 witness: the general no-marker case applied to a concrete completion. -/
theorem c2_witness : navParse "Directive free reply." = NavResult.noDirective :=
  c2_directive_detection.2.2.2.1 "Directive free reply." (by decide)

/-- C3: evaluation at the failing input.  For a completion carrying only the
no-space variant of the marker whose navigation fetch fails, the directive IS
detected (line 216 fires), yet the raw completion is appended to the stored
history as an assistant turn, because the suppression guard of line 235 tests
only the space variant; the same scenario with the space variant stores
nothing. -/
theorem c3_guard_mismatch :
    hasMarker "\x7b\"action\": \"navigate\", \"url\": \"http://a\"\x7d" = true ∧
    hasMarkerSpace "\x7b\"action\": \"navigate\", \"url\": \"http://a\"\x7d" = false ∧
    (handle_reply (SessionState.mk "ctx" [] [] [] "http://c")
        "\x7b\"action\": \"navigate\", \"url\": \"http://a\"\x7d" none).messages =
      [Turn.mk "assistant" "\x7b\"action\": \"navigate\", \"url\": \"http://a\"\x7d"] ∧
    (handle_reply (SessionState.mk "ctx" [] [] [] "http://c")
        "\x7b \"action\": \"navigate\", \"url\": \"http://a\"\x7d" none).messages = [] := by
  decide

/-- C9: the composed turn sequence is a deterministic function of the stored
document text, the first 50 links and the history (so composing twice from an
unchanged state yields identical sequences); it is the freshly recomputed
system turn followed by the stored history, and when the history holds no
system turn the sequence contains exactly one. -/
theorem c9_compose (s1 s2 : SessionState)
    (htext : s1.context_text = s2.context_text)
    (hlinks : s1.found_links.take 50 = s2.found_links.take 50)
    (hmsgs : s1.messages = s2.messages) :
    api_messages s1 = api_messages s2 ∧
    api_messages s1 =
      Turn.mk "system" (system_prompt s1.context_text s1.found_links) :: s1.messages ∧
    ((∀ t ∈ s1.messages, t.role ≠ "system") →
      (api_messages s1).countP (fun t => t.role == "system") = 1) := by
  refine ⟨?_, rfl, ?_⟩
  · unfold api_messages system_prompt
    rw [htext, hmsgs, links_context_congr _ _ hlinks]
  · intro h
    unfold api_messages
    rw [List.countP_cons]
    have hz : s1.messages.countP (fun t => t.role == "system") = 0 := by
      rw [List.countP_eq_zero]
      intro a ha
      simpa using h a ha
    rw [hz]
    rfl

/-- C9 witness: the single-system-turn count at a concrete state with empty
history, with the hypotheses discharged. -/
theorem c9_witness :
    (api_messages (SessionState.mk "doc" [] [] [] "http://s")).countP
      (fun t => t.role == "system") = 1 :=
  (c9_compose (SessionState.mk "doc" [] [] [] "http://s")
      (SessionState.mk "doc" [] [] [] "http://s") rfl rfl rfl).2.2
    (fun t ht => absurd ht (List.not_mem_nil t))

/-- C10: the URL extraction is a leftmost search — it returns the first
position anywhere in the completion where the bounded pattern after a
`"url":` occurrence matches, regardless of its relation to the marker; in
particular a completion whose prose mentions a url field before the directive
yields the prose value, not the directive target. -/
theorem c10_url_extraction :
    (∀ s : List Char, findUrl s = s.tails.findSome? tryUrl) ∧
    navParse "The page lists a \"url\": \"http://decoy\" field. \x7b\"action\": \"navigate\", \"url\": \"http://real\"\x7d" =
      NavResult.navigate "http://decoy" ∧
    hasMarker "The page lists a \"url\": \"http://decoy\" field. \x7b\"action\": \"navigate\", \"url\": \"http://real\"\x7d" = true := by
  refine ⟨findUrl_tails, by decide, by decide⟩
